import Mathlib

/-!
Shallow embedding of `src/components/ResizeDetector.js` from the
react-resize-detector repository, together with theorems checking the
natural-language specification against it.

Modelling conventions:
* JavaScript numeric-or-undefined values (widths and heights) are `Option Nat`
  (`none` = `undefined`); the claims under study depend only on (in)equality
  of sizes, never on floating-point arithmetic.
* A `ResizeObserver` entry may be `null` or lack a `contentRect`; an entry in a
  callback batch is therefore an `Option Entry`, and `Entry.contentRect` is an
  `Option ContentRect`, matching `(entry && entry.contentRect) || {}`.
* Side effects (calling `onResize`, calling `setState`) are recorded as an
  explicit event trace.
* The helpers from `lib/utils` (`isSSR`, `isFunction`, `isDOMElement`,
  `getHandle`) are not part of the provided source tree; they are modelled
  from the specification where marked.
-/

namespace RRD

/-- A content rectangle carried by an observation entry: measured width and
height, each possibly `undefined`. -/
structure ContentRect where
  width : Option Nat
  height : Option Nat
deriving DecidableEq, Repr

/-- A (non-null) observation entry, which may or may not carry a
`contentRect`. -/
structure Entry where
  contentRect : Option ContentRect
deriving DecidableEq, Repr

/-- The destructuring `const { width, height } = (entry && entry.contentRect) || {}`:
a null entry or an entry without a `contentRect` yields undefined width and
height. -/
def entryRect : Option Entry → ContentRect
  | some ⟨some r⟩ => r
  | _ => ⟨none, none⟩

/-- The (width, height) pair read from an entry. -/
def entrySize (e : Option Entry) : Option Nat × Option Nat :=
  ((entryRect e).width, (entryRect e).height)

/-- The configuration slice of the component props that the resize-handling
path reads. `onResizeIsFunction` models `isFunction(onResize)`;
`debounceMode` models `getHandle(refreshMode)` returning a debounce/throttle
wrapper (Modelled from the spec: `getHandle` lives in the missing
`lib/utils`; per §4.3 it selects an optional outer debounce/throttle stage
from `refreshMode`). -/
structure Props where
  handleWidth : Bool
  handleHeight : Bool
  onResizeIsFunction : Bool
  debounceMode : Bool
deriving DecidableEq, Repr

/-- The mutable instance fields of a mounted `ResizeDetector` that the
resize-handling path touches.

* `width`, `height` — `this.state`.
* `skipOnMount` — the mount-suppression flag `this.skipOnMount`.
* `rafPending` — the size buffered by the `raf-schd` wrapper created by
  `createUpdater`, `none` when no frame callback is scheduled.
* `pendingDebounced` — the entry batch held by the debounce/throttle wrapper
  awaiting its timer (Modelled from the spec: the wrapper defers invocation
  of the raw handler and exposes `cancel()`, §4.3/§6).
* `resizeHandlerActive` — `this.resizeHandler` has not been nulled by
  `cancelHandler`.
* `observerConnected` — `this.resizeObserver` has not been disconnected.
* `unmounted` — `this.unmounted`. -/
structure Machine where
  width : Option Nat
  height : Option Nat
  skipOnMount : Bool
  rafPending : Option (Option Nat × Option Nat)
  pendingDebounced : Option (List (Option Entry))
  resizeHandlerActive : Bool
  observerConnected : Bool
  unmounted : Bool
deriving DecidableEq, Repr

/-- Accumulator for the `entries.forEach` loop inside `createResizeHandler`:
the running `skipOnMount` flag, the size currently buffered in the fresh
`raf-schd` updater, and the trace of updater invocations made so far. -/
structure BatchAcc where
  skipOnMount : Bool
  pending : Option (Option Nat × Option Nat)
  calls : List (Option Nat × Option Nat)
deriving DecidableEq, Repr

/-- The body of `entries.forEach(entry => ...)` in `createResizeHandler`.
`wCur`/`hCur` are the `width`/`height` destructured from `this.state` once at
the start of the handler; `ssr` models `isSSR()` (Modelled from the spec:
`isSSR` lives in the missing `lib/utils` and reports a non-browser execution
context, §7). -/
def processEntry (props : Props) (ssr : Bool) (wCur hCur : Option Nat)
    (acc : BatchAcc) (e : Option Entry) : BatchAcc :=
  let w := (entryRect e).width
  let h := (entryRect e).height
  let isWidthChanged := props.handleWidth && wCur != w
  let isHeightChanged := props.handleHeight && hCur != h
  let isSizeChanged := isWidthChanged || isHeightChanged
  let shouldSetSize := !acc.skipOnMount && isSizeChanged && !ssr
  let acc1 :=
    if shouldSetSize then
      { acc with pending := some (w, h), calls := acc.calls ++ [(w, h)] }
    else acc
  { acc1 with skipOnMount := false }

/-- `createResizeHandler`: captures current state, early-returns when neither
dimension is handled, creates a fresh updater (`createUpdater` first performs
`rafClean`, cancelling any previously scheduled frame callback, hence the
buffered size restarts from `none`), then processes the entries in delivery
order. Returns the updated instance fields together with the trace of
updater invocations. -/
def createResizeHandler (props : Props) (ssr : Bool) (st : Machine)
    (entries : List (Option Entry)) : Machine × List (Option Nat × Option Nat) :=
  if !props.handleWidth && !props.handleHeight then (st, [])
  else
    let acc := entries.foldl (processEntry props ssr st.width st.height)
      ⟨st.skipOnMount, none, []⟩
    ({ st with skipOnMount := acc.skipOnMount, rafPending := acc.pending }, acc.calls)

/-- An observable side effect of the component. -/
inductive Event where
  | onResizeCall (w h : Option Nat)
  | setStateCall (w h : Option Nat)
deriving DecidableEq, Repr

/-- The animation-frame flush of the `raf-schd` wrapper built in
`createUpdater`: if a size is buffered, invoke `onResize` (when it is a
function) with the buffered width and height, then `setState` with them. -/
def frameFlush (props : Props) (st : Machine) : Machine × List Event :=
  match st.rafPending with
  | none => (st, [])
  | some (w, h) =>
    ({ st with width := w, height := h, rafPending := none },
      (if props.onResizeIsFunction then [Event.onResizeCall w h] else [])
        ++ [Event.setStateCall w h])

/-- An asynchronous occurrence after mount: the native observation facility
delivers a batch, the debounce/throttle timer fires, or the animation frame
fires. -/
inductive MEvent where
  | nativeCallback (entries : List (Option Entry))
  | timerFire
  | frameFire
deriving DecidableEq, Repr

/-- One asynchronous step. A native callback reaches `this.resizeHandler`
only while the observer is connected; with a debounce/throttle wrapper
(Modelled from the spec: §4.3/§6, the wrapper defers the raw callback) the
batch is parked for the timer, otherwise `createResizeHandler` runs at once.
A timer delivers a parked batch to an uncancelled handler. A frame fire runs
the `raf-schd` flush. -/
def step (props : Props) (ssr : Bool) (st : Machine) :
    MEvent → Machine × List Event
  | .nativeCallback entries =>
    if !st.observerConnected then (st, [])
    else if !st.resizeHandlerActive then (st, [])
    else if props.debounceMode then ({ st with pendingDebounced := some entries }, [])
    else ((createResizeHandler props ssr st entries).1, [])
  | .timerFire =>
    match st.pendingDebounced with
    | none => (st, [])
    | some entries =>
      if !st.resizeHandlerActive then (st, [])
      else ((createResizeHandler props ssr { st with pendingDebounced := none } entries).1, [])
  | .frameFire => frameFlush props st

/-- A run of asynchronous steps, accumulating the emitted events. -/
def run (props : Props) (ssr : Bool) (st : Machine) :
    List MEvent → Machine × List Event
  | [] => (st, [])
  | e :: rest =>
    ((run props ssr (step props ssr st e).1 rest).1,
      (step props ssr st e).2 ++ (run props ssr (step props ssr st e).1 rest).2)

/-- `rafClean`: cancel the scheduled frame callback, if any. -/
def rafClean (st : Machine) : Machine :=
  { st with rafPending := none }

/-- `cancelHandler`: when `this.resizeHandler` is a debounce/throttle wrapper
(only those expose `.cancel`), cancel its pending invocation and null the
handler. -/
def cancelHandler (props : Props) (st : Machine) : Machine :=
  if st.resizeHandlerActive && props.debounceMode then
    { st with pendingDebounced := none, resizeHandlerActive := false }
  else st

/-- `componentWillUnmount`: disconnect the observer, clean the frame
callback, cancel the debounce/throttle handler, mark unmounted. -/
def componentWillUnmount (props : Props) (st : Machine) : Machine :=
  let st1 := { st with observerConnected := false }
  let st2 := rafClean st1
  let st3 := cancelHandler props st2
  { st3 with unmounted := true }

/-! ## Render dispatcher (`getRenderType`, `render`) -/

/-- A React element appearing among `children`, with optional injected
`width`/`height` props (`some v` once `cloneElement` has injected the value
`v`, which itself may be `undefined`). -/
structure CElem where
  tag : String
  widthProp : Option (Option Nat) := none
  heightProp : Option (Option Nat) := none
deriving DecidableEq, Repr

/-- The shape of the `children` prop as inspected by `getRenderType`:
a function, a single valid element, an array (whose falsy slots are `none`),
`null`, or some other value. -/
inductive JsChildren where
  | nullv
  | func
  | element (e : CElem)
  | array (l : List (Option CElem))
  | other
deriving DecidableEq, Repr

/-- The props slice read by `getRenderType` and `render`.
`renderIsFunction` models `isFunction(render)` (Modelled from the spec:
`isFunction` lives in the missing `lib/utils` and tests whether a value is a
function). -/
structure RenderProps where
  renderIsFunction : Bool
  children : JsChildren
  nodeType : String
deriving DecidableEq, Repr

/-- The strategy names returned by `getRenderType`. -/
inductive RenderType where
  | renderProp
  | childFunction
  | child
  | childArray
  | parent
deriving DecidableEq, Repr

/-- `getRenderType`: pick the render strategy from the props shape, in
source order. -/
def getRenderType (rp : RenderProps) : RenderType :=
  if rp.renderIsFunction then .renderProp
  else
    match rp.children with
    | .func => .childFunction
    | .element _ => .child
    | .array _ => .childArray
    | _ => .parent

/-- `React.cloneElement(el, { width, height })`: the element with the current
width and height injected as props. -/
def cloneElement (e : CElem) (w h : Option Nat) : CElem :=
  { e with widthProp := some w, heightProp := some h }

/-- The value produced by `render()`: which branch ran and with what data.
`invalidElementError` models `React.cloneElement` throwing when its argument
is not a valid element (unreachable through `getRenderType`). -/
inductive RenderResult where
  | invokedRender (w h : Option Nat)
  | invokedChildFunction (w h : Option Nat)
  | clonedSingle (e : CElem)
  | clonedArray (xs : List (Option CElem))
  | emptyWrapper (tag : String)
  | invalidElementError
deriving DecidableEq, Repr

/-- The single-child branch of the switch: `cloneElement(children, childProps)`. -/
def cloneAsSingle (c : JsChildren) (w h : Option Nat) : RenderResult :=
  match c with
  | .element e => .clonedSingle (cloneElement e w h)
  | _ => .invalidElementError

/-- The child-array branch of the switch:
`children.map(el => !!el && cloneElement(el, childProps))` — a falsy slot
maps to the falsy value (kept as `none`), a truthy element is cloned. -/
def cloneAsArray (c : JsChildren) (w h : Option Nat) : RenderResult :=
  match c with
  | .array l => .clonedArray (l.map (Option.map (fun e => cloneElement e w h)))
  | _ => .invalidElementError

/-- `render()`: dispatch on `getRenderType` and build the output from the
current `width`/`height` state. -/
def renderComponent (rp : RenderProps) (w h : Option Nat) : RenderResult :=
  match getRenderType rp with
  | .renderProp => .invokedRender w h
  | .childFunction => .invokedChildFunction w h
  | .child => cloneAsSingle rp.children w h
  | .childArray => cloneAsArray rp.children w h
  | .parent => .emptyWrapper rp.nodeType

/-! ## Element resolver (`getElement`) -/

/-- A JavaScript value standing where a DOM element may be expected:
`null`/`undefined` (falsy), a truthy non-element, or a DOM element
identified by a numeric id. -/
inductive JsVal where
  | nullv
  | nonElem
  | elem (e : Nat)
deriving DecidableEq, Repr

/-- JavaScript truthiness of such a value. -/
def truthy : JsVal → Bool
  | .nullv => false
  | _ => true

/-- Modelled from the spec: `isDOMElement` from the missing `lib/utils`
tests whether a value is a DOM element (§4.1, explicit element reference). -/
def isDOMElement : JsVal → Bool
  | .elem _ => true
  | _ => false

/-- The element id carried by a value, when it is a DOM element. -/
def asElem : JsVal → Option Nat
  | .elem e => some e
  | _ => none

/-- The DOM node returned by `findDOMNode(this)`: the node itself and its
`parentElement` (which may be `null`). -/
structure RenderedNode where
  self : Nat
  parentElement : Option Nat
deriving DecidableEq, Repr

/-- The browser-side context `getElement` consults: whether this is a
non-browser (SSR) pass, what `document.querySelector` returns for the
configured selector, and what `findDOMNode(this)` returns. -/
structure ResolveEnv where
  ssr : Bool
  queryResult : Option Nat
  renderedNode : Option RenderedNode
deriving DecidableEq, Repr

/-- `getElement`: resolve the DOM node to observe. `querySelector` is the
truthiness of the selector prop; `targetDomEl` is the `targetDomEl` prop;
`targetRefCurrent` is `this.targetRef.current` (after `attachObserver` has
copied a provided external ref into the internal one). `this.targetRef`
itself is always truthy, so only `isDOMElement(this.targetRef.current)` is
checked on that branch. -/
def getElement (env : ResolveEnv) (rp : RenderProps) (querySelector : Bool)
    (targetDomEl targetRefCurrent : JsVal) : Option Nat :=
  if env.ssr then none
  else if querySelector then env.queryResult
  else if truthy targetDomEl && isDOMElement targetDomEl then asElem targetDomEl
  else if isDOMElement targetRefCurrent then asElem targetRefCurrent
  else
    match env.renderedNode with
    | none => none
    | some n =>
      match getRenderType rp with
      | .renderProp => some n.self
      | .childFunction => some n.self
      | .child => some n.self
      | .childArray => some n.self
      | .parent => n.parentElement

/-! ## Observation adapter (`attachObserver`) -/

/-- The registration state: `observableElement` is the instance field of the
same name; `observed` is the set of nodes currently registered with the
native observation facility (per §6 it offers `register(node, callback)`,
idempotent per node, and a deregister-all used at teardown). -/
structure ObserverState where
  observableElement : Option Nat
  observed : List Nat
deriving DecidableEq, Repr

/-- `ResizeObserver.observe(element)`: registration is idempotent per node;
observing a new node adds it to the observed set without removing others. -/
def observe (obs : List Nat) (e : Nat) : List Nat :=
  if e ∈ obs then obs else obs ++ [e]

/-- The registration logic of `attachObserver`, applied to the element the
resolver produced: bail out when no element was found or when the resolved
element is the one already tracked, otherwise record it and register it. -/
def attachObserver (resolved : Option Nat) (st : ObserverState) : ObserverState :=
  match resolved with
  | none => st
  | some e =>
    if st.observableElement.isSome && st.observableElement == some e then st
    else { observableElement := some e, observed := observe st.observed e }

/-- `ResizeObserver.disconnect()` at teardown: deregister all. -/
def disconnectObserver (st : ObserverState) : ObserverState :=
  { st with observed := [] }

/-! ## Helper lemmas -/

/-- Registration is monotone: `observe` never removes a registered node. -/
theorem mem_observe_of_mem {obs : List Nat} {x e : Nat} (hx : x ∈ obs) :
    x ∈ observe obs e := by
  unfold observe
  split
  · exact hx
  · exact List.mem_append_left _ hx

end RRD

/-- Claim C1 (counterexample): the claimed invariant fails. Starting from a
fresh instance, `attachObserver` resolving element 1 and then, on a later
update, element 2 leaves BOTH elements registered with the native facility:
`observe` adds the new target without removing the old one, so after the
switch two native observation registrations are active for the instance and
the previously observed element 1 remains registered. -/
theorem C1_counterexample :
    (RRD.attachObserver (some 2)
        (RRD.attachObserver (some 1) ⟨none, []⟩)).observed = [1, 2] ∧
    1 ∈ (RRD.attachObserver (some 2)
        (RRD.attachObserver (some 1) ⟨none, []⟩)).observed ∧
    (RRD.attachObserver (some 2)
        (RRD.attachObserver (some 1) ⟨none, []⟩)).observableElement = some 2 := by
  decide

/-- Claim C1 (amended): `attachObserver` never registers an element twice
for an unchanged target — resolving no element or the already-tracked
element leaves the registration state untouched — but when the resolved
element differs from the tracked one the new element is registered IN
ADDITION to the old ones: every previously registered element remains
registered, and all registrations are released only by the teardown
deregister-all. -/
theorem C1_amended_attachObserver (st : RRD.ObserverState) (e : Nat) :
    (RRD.attachObserver none st = st) ∧
    (st.observableElement = some e → RRD.attachObserver (some e) st = st) ∧
    (st.observableElement ≠ some e →
      (RRD.attachObserver (some e) st).observableElement = some e ∧
      (RRD.attachObserver (some e) st).observed = RRD.observe st.observed e ∧
      ∀ x ∈ st.observed, x ∈ (RRD.attachObserver (some e) st).observed) ∧
    (RRD.disconnectObserver st).observed = [] := by
  refine ⟨rfl, ?_, ?_, rfl⟩
  · intro h
    simp [RRD.attachObserver, h]
  · intro h
    have hcond : (st.observableElement.isSome && st.observableElement == some e) = false := by
      cases hoe : st.observableElement with
      | none => simp [hoe]
      | some a =>
        have : a ≠ e := by
          intro rfl_a
          exact h (by simp [hoe, rfl_a])
        simp [hoe, this]
    refine ⟨?_, ?_, ?_⟩
    · simp [RRD.attachObserver, hcond]
    · simp [RRD.attachObserver, hcond]
    · intro x hx
      simp [RRD.attachObserver, hcond]
      exact RRD.mem_observe_of_mem hx

/-- Witness for the amended C1 theorem at a concrete instance: with element
1 tracked and element 2 resolved, the new element becomes the tracked one
while the old registration of 1 persists. -/
theorem C1_amended_attachObserver_witness :
    (RRD.attachObserver (some 2) ⟨some 1, [1]⟩).observableElement = some 2 ∧
    1 ∈ (RRD.attachObserver (some 2) ⟨some 1, [1]⟩).observed :=
  ⟨((C1_amended_attachObserver ⟨some 1, [1]⟩ 2).2.2.1 (by decide)).1,
    ((C1_amended_attachObserver ⟨some 1, [1]⟩ 2).2.2.1 (by decide)).2.2 1 (by decide)⟩

/-- Claim C3: element resolution follows the strict priority
querySelector > targetDomEl > targetRef > element inferred from the rendered
output; with every candidate simultaneously available the query result is
returned; in a non-browser (SSR) context resolution returns none. For the
inference fallback, the rendered node itself is returned under the
render-prop, function-child, single-child and child-array strategies, and
otherwise the parent of the rendered wrapper; a missing rendered node resolves to
none. -/
theorem C3_getElement_priority (env : RRD.ResolveEnv) (rp : RRD.RenderProps)
    (qs : Bool) (tde trc : RRD.JsVal) (d r : Nat) (n : RRD.RenderedNode) :
    (env.ssr = true → RRD.getElement env rp qs tde trc = none) ∧
    (env.ssr = false → qs = true →
      RRD.getElement env rp qs tde trc = env.queryResult) ∧
    (env.ssr = false → qs = false → tde = .elem d →
      RRD.getElement env rp qs tde trc = some d) ∧
    (env.ssr = false → qs = false → RRD.isDOMElement tde = false → trc = .elem r →
      RRD.getElement env rp qs tde trc = some r) ∧
    (env.ssr = false → qs = false → RRD.isDOMElement tde = false →
      RRD.isDOMElement trc = false → env.renderedNode = none →
      RRD.getElement env rp qs tde trc = none) ∧
    (env.ssr = false → qs = false → RRD.isDOMElement tde = false →
      RRD.isDOMElement trc = false → env.renderedNode = some n →
      RRD.getRenderType rp ≠ .parent →
      RRD.getElement env rp qs tde trc = some n.self) ∧
    (env.ssr = false → qs = false → RRD.isDOMElement tde = false →
      RRD.isDOMElement trc = false → env.renderedNode = some n →
      RRD.getRenderType rp = .parent →
      RRD.getElement env rp qs tde trc = n.parentElement) := by
  refine ⟨?_, ?_, ?_, ?_, ?_, ?_, ?_⟩
  · intro hssr
    simp [RRD.getElement, hssr]
  · intro hssr hqs
    simp [RRD.getElement, hssr, hqs]
  · intro hssr hqs htde
    simp [RRD.getElement, hssr, hqs, htde, RRD.truthy, RRD.isDOMElement, RRD.asElem]
  · intro hssr hqs htde htrc
    cases tde with
    | elem x => simp [RRD.isDOMElement] at htde
    | nullv =>
      simp [RRD.getElement, hssr, hqs, htrc, RRD.truthy, RRD.isDOMElement, RRD.asElem]
    | nonElem =>
      simp [RRD.getElement, hssr, hqs, htrc, RRD.truthy, RRD.isDOMElement, RRD.asElem]
  · intro hssr hqs htde htrc hrn
    simp [RRD.getElement, hssr, hqs, htde, htrc, hrn]
  · intro hssr hqs htde htrc hrn hrt
    cases hty : RRD.getRenderType rp with
    | parent => exact absurd hty hrt
    | renderProp => simp [RRD.getElement, hssr, hqs, htde, htrc, hrn, hty]
    | childFunction => simp [RRD.getElement, hssr, hqs, htde, htrc, hrn, hty]
    | child => simp [RRD.getElement, hssr, hqs, htde, htrc, hrn, hty]
    | childArray => simp [RRD.getElement, hssr, hqs, htde, htrc, hrn, hty]
  · intro hssr hqs htde htrc hrn hty
    simp [RRD.getElement, hssr, hqs, htde, htrc, hrn, hty]

/-- Witness for C3 at a concrete configuration where every candidate is
simultaneously available: a matching query selector (hitting node 7), a DOM
`targetDomEl` (node 3), a DOM `targetRef.current` (node 4) and a rendered
node (9, with parent 10); resolution returns the query match 7, and the same
configuration during an SSR pass resolves to none. -/
theorem C3_getElement_priority_witness :
    RRD.getElement ⟨false, some 7, some ⟨9, some 10⟩⟩
      ⟨false, .nullv, "div"⟩ true (.elem 3) (.elem 4) = some 7 ∧
    RRD.getElement ⟨true, some 7, some ⟨9, some 10⟩⟩
      ⟨false, .nullv, "div"⟩ true (.elem 3) (.elem 4) = none :=
  ⟨(C3_getElement_priority ⟨false, some 7, some ⟨9, some 10⟩⟩
      ⟨false, .nullv, "div"⟩ true (.elem 3) (.elem 4) 3 4 ⟨9, some 10⟩).2.1 rfl rfl,
    (C3_getElement_priority ⟨true, some 7, some ⟨9, some 10⟩⟩
      ⟨false, .nullv, "div"⟩ true (.elem 3) (.elem 4) 3 4 ⟨9, some 10⟩).1 rfl⟩

/-- Claim C6: the render dispatcher selects exactly one strategy in priority
order: a function render prop is invoked with the current width/height;
otherwise a function child is invoked with them; otherwise a single valid
element child is cloned with width/height injected; otherwise each non-null
slot of an array child is cloned the same way (null slots stay null);
otherwise an empty element of the configured `nodeType` tag is produced. -/
theorem C6_render_dispatch (rp : RRD.RenderProps) (w h : Option Nat)
    (e : RRD.CElem) (l : List (Option RRD.CElem)) :
    (rp.renderIsFunction = true →
      RRD.renderComponent rp w h = .invokedRender w h) ∧
    (rp.renderIsFunction = false → rp.children = .func →
      RRD.renderComponent rp w h = .invokedChildFunction w h) ∧
    (rp.renderIsFunction = false → rp.children = .element e →
      RRD.renderComponent rp w h
        = .clonedSingle { e with widthProp := some w, heightProp := some h }) ∧
    (rp.renderIsFunction = false → rp.children = .array l →
      RRD.renderComponent rp w h
        = .clonedArray (l.map (Option.map (fun c => RRD.cloneElement c w h)))) ∧
    (rp.renderIsFunction = false → (rp.children = .nullv ∨ rp.children = .other) →
      RRD.renderComponent rp w h = .emptyWrapper rp.nodeType) := by
  refine ⟨?_, ?_, ?_, ?_, ?_⟩
  · intro hr
    simp [RRD.renderComponent, RRD.getRenderType, hr]
  · intro hr hc
    simp [RRD.renderComponent, RRD.getRenderType, hr, hc]
  · intro hr hc
    simp [RRD.renderComponent, RRD.getRenderType, hr, hc, RRD.cloneAsSingle,
      RRD.cloneElement]
  · intro hr hc
    simp [RRD.renderComponent, RRD.getRenderType, hr, hc, RRD.cloneAsArray]
  · intro hr hc
    rcases hc with hc | hc <;>
      simp [RRD.renderComponent, RRD.getRenderType, hr, hc]

/-- Witness for C6 at concrete inputs: a single span child is cloned with
width 5 / height 6 injected, and with a function render prop present the
render prop wins. -/
theorem C6_render_dispatch_witness :
    RRD.renderComponent ⟨false, .element ⟨"span", none, none⟩, "div"⟩
        (some 5) (some 6)
      = .clonedSingle ⟨"span", some (some 5), some (some 6)⟩ ∧
    RRD.renderComponent ⟨true, .func, "div"⟩ (some 5) (some 6)
      = .invokedRender (some 5) (some 6) :=
  ⟨(C6_render_dispatch ⟨false, .element ⟨"span", none, none⟩, "div"⟩
      (some 5) (some 6) ⟨"span", none, none⟩ []).2.2.1 rfl rfl,
    (C6_render_dispatch ⟨true, .func, "div"⟩ (some 5) (some 6)
      ⟨"span", none, none⟩ []).1 rfl⟩

namespace RRD

/-- Processing one entry always clears the running mount-suppression flag. -/
theorem processEntry_skipOnMount (props : Props) (ssr : Bool)
    (wCur hCur : Option Nat) (acc : BatchAcc) (e : Option Entry) :
    (processEntry props ssr wCur hCur acc e).skipOnMount = false := rfl

/-- After a nonempty batch loop the running mount-suppression flag is
cleared. -/
theorem foldl_processEntry_skipOnMount (props : Props) (ssr : Bool)
    (wCur hCur : Option Nat) :
    ∀ (entries : List (Option Entry)) (acc : BatchAcc), entries ≠ [] →
      ((entries.foldl (processEntry props ssr wCur hCur) acc).skipOnMount = false) := by
  intro entries
  induction entries with
  | nil => intro acc hne; exact absurd rfl hne
  | cons e rest ih =>
    intro acc _
    cases rest with
    | nil => simp [List.foldl, processEntry_skipOnMount]
    | cons e2 r2 => exact ih _ (by simp)

/-- One loop iteration either leaves the accumulator untouched (apart from
clearing the flag) or buffers the entry size and records an updater call. -/
theorem processEntry_cases (props : Props) (ssr : Bool) (wCur hCur : Option Nat)
    (acc : BatchAcc) (e : Option Entry) :
    processEntry props ssr wCur hCur acc e = { acc with skipOnMount := false } ∨
    processEntry props ssr wCur hCur acc e
      = ⟨false, some (entrySize e), acc.calls ++ [entrySize e]⟩ := by
  simp only [processEntry]
  split
  · exact Or.inr rfl
  · exact Or.inl rfl

/-- A qualifying entry (flag clear, a handled dimension changed, browser
context) buffers its size and records an updater call. -/
theorem processEntry_qualifying (props : Props) (ssr : Bool)
    (wCur hCur : Option Nat) (acc : BatchAcc) (e : Option Entry)
    (hskip : acc.skipOnMount = false) (hssr : ssr = false)
    (hchange : ((props.handleWidth && (wCur != (entryRect e).width))
        || (props.handleHeight && (hCur != (entryRect e).height))) = true) :
    processEntry props ssr wCur hCur acc e
      = ⟨false, some (entrySize e), acc.calls ++ [entrySize e]⟩ := by
  simp only [processEntry, hskip, hssr, hchange]
  simp [entrySize]

/-- A non-qualifying entry under a clear flag only clears the running flag. -/
theorem processEntry_not_qualifying (props : Props) (ssr : Bool)
    (wCur hCur : Option Nat) (acc : BatchAcc) (e : Option Entry)
    (hchange : ((props.handleWidth && (wCur != (entryRect e).width))
        || (props.handleHeight && (hCur != (entryRect e).height))) = false) :
    processEntry props ssr wCur hCur acc e = { acc with skipOnMount := false } := by
  simp only [processEntry, hchange]
  simp

/-- The buffered size tracks the last recorded updater call through the
batch loop. -/
theorem foldl_processEntry_pending_last (props : Props) (ssr : Bool)
    (wCur hCur : Option Nat) :
    ∀ (entries : List (Option Entry)) (acc : BatchAcc),
      acc.pending = acc.calls.getLast? →
      (entries.foldl (processEntry props ssr wCur hCur) acc).pending
        = (entries.foldl (processEntry props ssr wCur hCur) acc).calls.getLast? := by
  intro entries
  induction entries with
  | nil => intro acc h; exact h
  | cons e rest ih =>
    intro acc h
    rw [List.foldl_cons]
    rcases processEntry_cases props ssr wCur hCur acc e with hc | hc
    · exact ih _ (by rw [hc]; exact h)
    · exact ih _ (by rw [hc]; simp)

/-- The updater-call trace of the batch loop extends the accumulated trace
by a sublist of the entry sizes, in delivery order. -/
theorem foldl_processEntry_calls_sublist (props : Props) (ssr : Bool)
    (wCur hCur : Option Nat) :
    ∀ (entries : List (Option Entry)) (acc : BatchAcc),
      ∃ ex, (entries.foldl (processEntry props ssr wCur hCur) acc).calls
          = acc.calls ++ ex ∧
        ex.Sublist (entries.map entrySize) := by
  intro entries
  induction entries with
  | nil => intro acc; exact ⟨[], by simp, by simp⟩
  | cons e rest ih =>
    intro acc
    rcases processEntry_cases props ssr wCur hCur acc e with hc | hc
    · obtain ⟨ex, hcalls, hsub⟩ := ih (processEntry props ssr wCur hCur acc e)
      refine ⟨ex, ?_, ?_⟩
      · rw [List.foldl_cons] at *
        rw [hcalls, hc]
      · simpa using hsub.cons (entrySize e)
    · obtain ⟨ex, hcalls, hsub⟩ := ih (processEntry props ssr wCur hCur acc e)
      refine ⟨entrySize e :: ex, ?_, ?_⟩
      · rw [List.foldl_cons] at *
        rw [hcalls, hc]
        simp
      · simpa using hsub.cons₂ (entrySize e)

/-- Entries whose handled dimensions match the captured state leave the
buffered size and the call trace untouched. -/
theorem foldl_processEntry_no_change (props : Props) (ssr : Bool)
    (wCur hCur : Option Nat) :
    ∀ (entries : List (Option Entry)) (acc : BatchAcc),
      (∀ e ∈ entries,
        (props.handleWidth = true → (entryRect e).width = wCur) ∧
        (props.handleHeight = true → (entryRect e).height = hCur)) →
      (entries.foldl (processEntry props ssr wCur hCur) acc).pending = acc.pending ∧
      (entries.foldl (processEntry props ssr wCur hCur) acc).calls = acc.calls := by
  intro entries
  induction entries with
  | nil => intro acc _; exact ⟨rfl, rfl⟩
  | cons e rest ih =>
    intro acc h
    have he := h e (List.mem_cons_self e rest)
    have hW : (props.handleWidth && (wCur != (entryRect e).width)) = false := by
      cases hp : props.handleWidth with
      | false => rfl
      | true => simp [he.1 hp]
    have hH : (props.handleHeight && (hCur != (entryRect e).height)) = false := by
      cases hp : props.handleHeight with
      | false => rfl
      | true => simp [he.2 hp]
    have hc := processEntry_not_qualifying props ssr wCur hCur acc e
      (by rw [hW, hH]; rfl)
    rw [List.foldl_cons, hc]
    have := ih { acc with skipOnMount := false }
      (fun e2 he2 => h e2 (List.mem_cons_of_mem e he2))
    exact this

end RRD

namespace RRD

/-- With neither dimension handled, `createResizeHandler` is the identity
and makes no updater call. -/
theorem createResizeHandler_no_dims (props : Props) (ssr : Bool)
    (st : Machine) (entries : List (Option Entry))
    (hw : props.handleWidth = false) (hh : props.handleHeight = false) :
    createResizeHandler props ssr st entries = (st, []) := by
  simp [createResizeHandler, hw, hh]

/-- With neither dimension handled, a step emits no event and preserves the
size state and the empty frame buffer. -/
theorem step_no_dims (props : Props) (ssr : Bool) (st : Machine) (ev : MEvent)
    (hw : props.handleWidth = false) (hh : props.handleHeight = false)
    (hraf : st.rafPending = none) :
    (step props ssr st ev).2 = [] ∧
    (step props ssr st ev).1.width = st.width ∧
    (step props ssr st ev).1.height = st.height ∧
    (step props ssr st ev).1.rafPending = none := by
  have hgen : ∀ (s : Machine) (es : List (Option Entry)),
      createResizeHandler props ssr s es = (s, []) :=
    fun s es => createResizeHandler_no_dims props ssr s es hw hh
  cases ev with
  | nativeCallback entries =>
    cases hc : st.observerConnected <;> cases ha : st.resizeHandlerActive <;>
      cases hd : props.debounceMode <;> simp [step, hc, ha, hd, hraf, hgen]
  | timerFire =>
    cases hp : st.pendingDebounced with
    | none => simp [step, hp, hraf]
    | some b =>
      cases ha : st.resizeHandlerActive <;> simp [step, hp, ha, hraf, hgen]
  | frameFire => simp [step, frameFlush, hraf]

/-- A step from an inert post-teardown state (observer disconnected, no frame
callback scheduled, and no parked batch unless the handler was cancelled) is
a no-op. -/
theorem step_after_teardown (props : Props) (ssr : Bool) (st : Machine)
    (ev : MEvent) (hconn : st.observerConnected = false)
    (hraf : st.rafPending = none)
    (hpd : st.pendingDebounced = none ∨ st.resizeHandlerActive = false) :
    step props ssr st ev = (st, []) := by
  cases ev with
  | nativeCallback entries => simp [step, hconn]
  | timerFire =>
    cases hp : st.pendingDebounced with
    | none => simp [step, hp]
    | some b =>
      rcases hpd with hpn | ha
      · rw [hp] at hpn; exact absurd hpn (by simp)
      · simp [step, hp, ha]
  | frameFire => simp [step, frameFlush, hraf]

/-- A whole run from an inert post-teardown state is a no-op. -/
theorem run_after_teardown (props : Props) (ssr : Bool) :
    ∀ (events : List MEvent) (st : Machine),
      st.observerConnected = false → st.rafPending = none →
      (st.pendingDebounced = none ∨ st.resizeHandlerActive = false) →
      run props ssr st events = (st, []) := by
  intro events
  induction events with
  | nil => intro st _ _ _; rfl
  | cons ev rest ih =>
    intro st hconn hraf hpd
    have hstep := step_after_teardown props ssr st ev hconn hraf hpd
    simp only [run, hstep]
    simp [ih st hconn hraf hpd]

/-- `componentWillUnmount` leaves the instance in an inert state; the size
state is untouched by teardown itself. The hypothesis says a batch can only
be parked at the debounce/throttle wrapper when such a wrapper exists, which
holds in every reachable state. -/
theorem componentWillUnmount_inert (props : Props) (st : Machine)
    (hpd : props.debounceMode = false → st.pendingDebounced = none) :
    (componentWillUnmount props st).observerConnected = false ∧
    (componentWillUnmount props st).rafPending = none ∧
    ((componentWillUnmount props st).pendingDebounced = none ∨
      (componentWillUnmount props st).resizeHandlerActive = false) ∧
    (componentWillUnmount props st).width = st.width ∧
    (componentWillUnmount props st).height = st.height := by
  cases hd : props.debounceMode with
  | false =>
    have hp0 := hpd hd
    cases ha : st.resizeHandlerActive <;>
      simp [componentWillUnmount, rafClean, cancelHandler, ha, hd, hp0]
  | true =>
    cases ha : st.resizeHandlerActive <;>
      simp [componentWillUnmount, rafClean, cancelHandler, ha, hd]

/-- Variant of `componentWillUnmount_inert` without the reachability
hypothesis, for the case with a debounce/throttle wrapper. -/
theorem componentWillUnmount_inert_debounced (props : Props) (st : Machine)
    (hd : props.debounceMode = true) :
    (componentWillUnmount props st).observerConnected = false ∧
    (componentWillUnmount props st).rafPending = none ∧
    ((componentWillUnmount props st).pendingDebounced = none ∨
      (componentWillUnmount props st).resizeHandlerActive = false) := by
  cases ha : st.resizeHandlerActive <;>
    simp [componentWillUnmount, rafClean, cancelHandler, ha, hd]

end RRD

/-- Claim C4: with `handleWidth = false` and `handleHeight = false`, no
sequence of delivered observation batches, debounce timer fires and
animation frames ever emits an event — neither `onResize` nor `setState` is
ever called — and the width/height state is preserved throughout. -/
theorem C4_no_dims_no_update (props : RRD.Props) (ssr : Bool)
    (events : List RRD.MEvent) (st : RRD.Machine)
    (hw : props.handleWidth = false) (hh : props.handleHeight = false)
    (hraf : st.rafPending = none) :
    (RRD.run props ssr st events).2 = [] ∧
    (RRD.run props ssr st events).1.width = st.width ∧
    (RRD.run props ssr st events).1.height = st.height := by
  induction events generalizing st with
  | nil => exact ⟨rfl, rfl, rfl⟩
  | cons ev rest ih =>
    obtain ⟨h2, hwid, hhei, hraf2⟩ := RRD.step_no_dims props ssr st ev hw hh hraf
    obtain ⟨r2, rwid, rhei⟩ := ih (RRD.step props ssr st ev).1 hraf2
    refine ⟨?_, ?_, ?_⟩
    · simp only [RRD.run]
      rw [h2, r2]
      rfl
    · simp only [RRD.run]
      rw [rwid, hwid]
    · simp only [RRD.run]
      rw [rhei, hhei]

/-- Witness for C4: a configuration handling neither dimension receives a
batch with a genuinely new size followed by an animation frame; nothing is
emitted and the committed size stays (5, 6). -/
theorem C4_no_dims_no_update_witness :
    (RRD.run ⟨false, false, true, false⟩ false
        ⟨some 5, some 6, false, none, none, true, true, false⟩
        [.nativeCallback [some ⟨some ⟨some 100, some 50⟩⟩], .frameFire]).2 = [] ∧
    (RRD.run ⟨false, false, true, false⟩ false
        ⟨some 5, some 6, false, none, none, true, true, false⟩
        [.nativeCallback [some ⟨some ⟨some 100, some 50⟩⟩], .frameFire]).1.width = some 5 ∧
    (RRD.run ⟨false, false, true, false⟩ false
        ⟨some 5, some 6, false, none, none, true, true, false⟩
        [.nativeCallback [some ⟨some ⟨some 100, some 50⟩⟩], .frameFire]).1.height = some 6 :=
  C4_no_dims_no_update ⟨false, false, true, false⟩ false
    [.nativeCallback [some ⟨some ⟨some 100, some 50⟩⟩], .frameFire]
    ⟨some 5, some 6, false, none, none, true, true, false⟩ rfl rfl rfl

/-- Claim C7: after `componentWillUnmount` — which disconnects the observer,
cancels the pending frame-aligned callback and cancels the debounce/throttle
wrapper — every sequence of late native callbacks, timer fires and animation
frames is a complete no-op: no state change and no event, so neither
`setState` nor `onResize` ever runs after teardown. The hypothesis states
that a batch can be parked at the wrapper only when a wrapper exists, which
holds in every reachable state. -/
theorem C7_unmount_cancels (props : RRD.Props) (ssr : Bool) (st : RRD.Machine)
    (events : List RRD.MEvent)
    (hpd : props.debounceMode = false → st.pendingDebounced = none) :
    RRD.run props ssr (RRD.componentWillUnmount props st) events
      = (RRD.componentWillUnmount props st, []) := by
  obtain ⟨h1, h2, h3, _, _⟩ := RRD.componentWillUnmount_inert props st hpd
  exact RRD.run_after_teardown props ssr events _ h1 h2 h3

/-- Witness for C7: a debounced instance with a parked batch, a scheduled
frame callback and a connected observer is torn down; a late timer fire,
frame fire and native callback all leave the torn-down state untouched and
emit nothing. -/
theorem C7_unmount_cancels_witness :
    RRD.run ⟨true, true, true, true⟩ false
        (RRD.componentWillUnmount ⟨true, true, true, true⟩
          ⟨some 5, some 6, false, some (some 7, some 8),
            some [some ⟨some ⟨some 100, some 50⟩⟩], true, true, false⟩)
        [.timerFire, .frameFire, .nativeCallback [some ⟨some ⟨some 200, some 80⟩⟩]]
      = (RRD.componentWillUnmount ⟨true, true, true, true⟩
          ⟨some 5, some 6, false, some (some 7, some 8),
            some [some ⟨some ⟨some 100, some 50⟩⟩], true, true, false⟩, []) :=
  C7_unmount_cancels ⟨true, true, true, true⟩ false
    ⟨some 5, some 6, false, some (some 7, some 8),
      some [some ⟨some ⟨some 100, some 50⟩⟩], true, true, false⟩
    [.timerFire, .frameFire, .nativeCallback [some ⟨some ⟨some 200, some 80⟩⟩]]
    (by decide)

/-- Claim C2 (counterexample): with `skipOnMount = true` the first QUALIFYING
size change after mount is NOT suppressed when it does not arrive in the
first processed entry. From the initial undefined size, a batch whose first
entry carries no content rectangle (size equal to the pre-batch state, hence
not a qualifying change) followed by an entry measuring (100, 50) — the
first qualifying size change after mount — produces an updater call for
(100, 50), and the frame flush commits it to state and reports it through
`onResize`: the first qualifying change was delivered, not suppressed. -/
theorem C2_skipOnMount_counterexample :
    (RRD.createResizeHandler ⟨true, true, true, false⟩ false
        ⟨none, none, true, none, none, true, true, false⟩
        [some ⟨none⟩, some ⟨some ⟨some 100, some 50⟩⟩]).2
      = [(some 100, some 50)] ∧
    (RRD.frameFlush ⟨true, true, true, false⟩
        (RRD.createResizeHandler ⟨true, true, true, false⟩ false
          ⟨none, none, true, none, none, true, true, false⟩
          [some ⟨none⟩, some ⟨some ⟨some 100, some 50⟩⟩]).1).1.width = some 100 ∧
    (RRD.frameFlush ⟨true, true, true, false⟩
        (RRD.createResizeHandler ⟨true, true, true, false⟩ false
          ⟨none, none, true, none, none, true, true, false⟩
          [some ⟨none⟩, some ⟨some ⟨some 100, some 50⟩⟩]).1).2
      = [.onResizeCall (some 100) (some 50), .setStateCall (some 100) (some 50)] := by
  decide

/-- Claim C2 (amended): with `skipOnMount = true`, suppression applies
exactly to the first entry processed after mount, qualifying or not: a batch
behaves exactly as the same batch without its first entry would behave with
the flag already clear, and after the batch the flag is clear for good.
Hence a qualifying size change is suppressed only if it arrives in the first
processed entry; if that entry carries no qualifying change, nothing is ever
suppressed; all later size changes are delivered normally. (Requires at
least one handled dimension — otherwise the handler returns before touching
the flag.) -/
theorem C2_skipOnMount_amended (props : RRD.Props) (ssr : Bool)
    (st : RRD.Machine) (e : Option RRD.Entry) (rest : List (Option RRD.Entry))
    (hW : (props.handleWidth || props.handleHeight) = true) :
    RRD.createResizeHandler props ssr { st with skipOnMount := true } (e :: rest)
      = RRD.createResizeHandler props ssr { st with skipOnMount := false } rest ∧
    (RRD.createResizeHandler props ssr
        { st with skipOnMount := true } (e :: rest)).1.skipOnMount = false := by
  have hcond : (!props.handleWidth && !props.handleHeight) = false := by
    cases hw : props.handleWidth <;> cases hh : props.handleHeight <;> simp_all
  have hstep : RRD.processEntry props ssr st.width st.height ⟨true, none, []⟩ e
      = ⟨false, none, []⟩ := rfl
  constructor
  · simp [RRD.createResizeHandler, hcond, List.foldl_cons, hstep]
  · have hskip := RRD.foldl_processEntry_skipOnMount props ssr st.width st.height
      (e :: rest) ⟨true, none, []⟩ (by simp)
    rw [List.foldl_cons] at hskip
    simp [RRD.createResizeHandler, hcond, hskip]

/-- Witness for the amended C2 theorem: from the initial undefined size with
the flag set, a batch of two (100, 50) entries equals the one-entry batch
with the flag clear — one updater call for (100, 50) — and the flag ends up
clear. -/
theorem C2_skipOnMount_amended_witness :
    RRD.createResizeHandler ⟨true, true, true, false⟩ false
        ⟨none, none, true, none, none, true, true, false⟩
        [some ⟨some ⟨some 100, some 50⟩⟩, some ⟨some ⟨some 100, some 50⟩⟩]
      = RRD.createResizeHandler ⟨true, true, true, false⟩ false
        ⟨none, none, false, none, none, true, true, false⟩
        [some ⟨some ⟨some 100, some 50⟩⟩] ∧
    (RRD.createResizeHandler ⟨true, true, true, false⟩ false
        ⟨none, none, true, none, none, true, true, false⟩
        [some ⟨some ⟨some 100, some 50⟩⟩, some ⟨some ⟨some 100, some 50⟩⟩]).1.skipOnMount
      = false :=
  C2_skipOnMount_amended ⟨true, true, true, false⟩ false
    ⟨none, none, true, none, none, true, true, false⟩
    (some ⟨some ⟨some 100, some 50⟩⟩) [some ⟨some ⟨some 100, some 50⟩⟩] (by decide)

/-- Claim C5: when every entry of a delivered batch carries, in each handled
dimension, the same size as the state captured at the start of the handler,
no updater call is made, nothing is buffered for the frame flush, the
subsequent frame flush emits nothing, and the width/height state is
unchanged — no redundant notification. -/
theorem C5_no_redundant_update (props : RRD.Props) (ssr : Bool)
    (st : RRD.Machine) (entries : List (Option RRD.Entry))
    (hraf : st.rafPending = none)
    (hall : ∀ e ∈ entries,
      (props.handleWidth = true → (RRD.entryRect e).width = st.width) ∧
      (props.handleHeight = true → (RRD.entryRect e).height = st.height)) :
    (RRD.createResizeHandler props ssr st entries).2 = [] ∧
    (RRD.createResizeHandler props ssr st entries).1.rafPending = none ∧
    RRD.frameFlush props (RRD.createResizeHandler props ssr st entries).1
      = ((RRD.createResizeHandler props ssr st entries).1, []) ∧
    (RRD.createResizeHandler props ssr st entries).1.width = st.width ∧
    (RRD.createResizeHandler props ssr st entries).1.height = st.height := by
  by_cases hb : (!props.handleWidth && !props.handleHeight) = true
  · have h0 : RRD.createResizeHandler props ssr st entries = (st, []) := by
      simp [RRD.createResizeHandler, hb]
    rw [h0]
    exact ⟨rfl, hraf, by simp [RRD.frameFlush, hraf], rfl, rfl⟩
  · have hnc := RRD.foldl_processEntry_no_change props ssr st.width st.height
      entries ⟨st.skipOnMount, none, []⟩ hall
    have h0 : RRD.createResizeHandler props ssr st entries
        = ({ st with
              skipOnMount := (entries.foldl
                (RRD.processEntry props ssr st.width st.height)
                ⟨st.skipOnMount, none, []⟩).skipOnMount,
              rafPending := (entries.foldl
                (RRD.processEntry props ssr st.width st.height)
                ⟨st.skipOnMount, none, []⟩).pending },
            (entries.foldl (RRD.processEntry props ssr st.width st.height)
              ⟨st.skipOnMount, none, []⟩).calls) := by
      simp only [RRD.createResizeHandler, hb]
      simp
    rw [h0, hnc.1, hnc.2]
    exact ⟨rfl, rfl, by simp [RRD.frameFlush], rfl, rfl⟩

/-- Witness for C5: from committed size (100, 50), a batch of two entries
both measuring (100, 50) makes no updater call, the flush emits nothing, and
the state stays (100, 50). -/
theorem C5_no_redundant_update_witness :
    (RRD.createResizeHandler ⟨true, true, true, false⟩ false
        ⟨some 100, some 50, false, none, none, true, true, false⟩
        [some ⟨some ⟨some 100, some 50⟩⟩, some ⟨some ⟨some 100, some 50⟩⟩]).2 = [] ∧
    (RRD.createResizeHandler ⟨true, true, true, false⟩ false
        ⟨some 100, some 50, false, none, none, true, true, false⟩
        [some ⟨some ⟨some 100, some 50⟩⟩, some ⟨some ⟨some 100, some 50⟩⟩]).1.rafPending
      = none ∧
    (RRD.createResizeHandler ⟨true, true, true, false⟩ false
        ⟨some 100, some 50, false, none, none, true, true, false⟩
        [some ⟨some ⟨some 100, some 50⟩⟩, some ⟨some ⟨some 100, some 50⟩⟩]).1.width
      = some 100 := by
  have h := C5_no_redundant_update ⟨true, true, true, false⟩ false
    ⟨some 100, some 50, false, none, none, true, true, false⟩
    [some ⟨some ⟨some 100, some 50⟩⟩, some ⟨some ⟨some 100, some 50⟩⟩]
    rfl (by decide)
  exact ⟨h.1, h.2.1, h.2.2.2.1⟩

/-- Claim C8: within one delivered batch, entries are processed in delivery
order and qualifying sizes are forwarded in that order (the forwarded sizes
form an in-order sublist of the entry sizes); the size buffered for the
frame is always the LAST forwarded size (last-write-wins — earlier forwarded
sizes of the same frame are overwritten, never committed); and the single
per-frame flush of a buffered size invokes `onResize` exactly when it is a
function and commits the size to state, while an empty buffer flushes to
nothing. -/
theorem C8_batch_last_write_wins (props : RRD.Props) (ssr : Bool)
    (st : RRD.Machine) (entries : List (Option RRD.Entry))
    (hW : (props.handleWidth || props.handleHeight) = true) :
    (RRD.createResizeHandler props ssr st entries).1.rafPending
      = (RRD.createResizeHandler props ssr st entries).2.getLast? ∧
    (RRD.createResizeHandler props ssr st entries).2.Sublist
      (entries.map RRD.entrySize) ∧
    (∀ (m : RRD.Machine) (s : Option Nat × Option Nat), m.rafPending = some s →
      RRD.frameFlush props m
        = ({ m with width := s.1, height := s.2, rafPending := none },
          (if props.onResizeIsFunction then [RRD.Event.onResizeCall s.1 s.2] else [])
            ++ [RRD.Event.setStateCall s.1 s.2])) ∧
    (∀ m : RRD.Machine, m.rafPending = none → RRD.frameFlush props m = (m, [])) := by
  have hcond : (!props.handleWidth && !props.handleHeight) = false := by
    cases hw : props.handleWidth <;> cases hh : props.handleHeight <;> simp_all
  have h0 : RRD.createResizeHandler props ssr st entries
      = ({ st with
            skipOnMount := (entries.foldl
              (RRD.processEntry props ssr st.width st.height)
              ⟨st.skipOnMount, none, []⟩).skipOnMount,
            rafPending := (entries.foldl
              (RRD.processEntry props ssr st.width st.height)
              ⟨st.skipOnMount, none, []⟩).pending },
          (entries.foldl (RRD.processEntry props ssr st.width st.height)
            ⟨st.skipOnMount, none, []⟩).calls) := by
    simp only [RRD.createResizeHandler, hcond]
    simp
  refine ⟨?_, ?_, ?_, ?_⟩
  · rw [h0]
    exact RRD.foldl_processEntry_pending_last props ssr st.width st.height
      entries ⟨st.skipOnMount, none, []⟩ rfl
  · rw [h0]
    obtain ⟨ex, hc, hs⟩ := RRD.foldl_processEntry_calls_sublist props ssr
      st.width st.height entries ⟨st.skipOnMount, none, []⟩
    rw [hc]
    simpa using hs
  · intro m s hm
    obtain ⟨w, h⟩ := s
    simp [RRD.frameFlush, hm]
  · intro m hm
    simp [RRD.frameFlush, hm]

/-- Witness for C8: a batch delivering (100, 50) and then (200, 80) from the
initial undefined size forwards both in order, buffers the last one, and the
flush commits (200, 80) with a single `onResize` and a single `setState`. -/
theorem C8_batch_last_write_wins_witness :
    (RRD.createResizeHandler ⟨true, true, true, false⟩ false
        ⟨none, none, false, none, none, true, true, false⟩
        [some ⟨some ⟨some 100, some 50⟩⟩, some ⟨some ⟨some 200, some 80⟩⟩]).1.rafPending
      = some (some 200, some 80) ∧
    RRD.frameFlush ⟨true, true, true, false⟩
        (RRD.createResizeHandler ⟨true, true, true, false⟩ false
          ⟨none, none, false, none, none, true, true, false⟩
          [some ⟨some ⟨some 100, some 50⟩⟩, some ⟨some ⟨some 200, some 80⟩⟩]).1
      = (⟨some 200, some 80, false, none, none, true, true, false⟩,
        [.onResizeCall (some 200) (some 80), .setStateCall (some 200) (some 80)]) := by
  have h := C8_batch_last_write_wins ⟨true, true, true, false⟩ false
    ⟨none, none, false, none, none, true, true, false⟩
    [some ⟨some ⟨some 100, some 50⟩⟩, some ⟨some ⟨some 200, some 80⟩⟩] (by decide)
  have h1 : (RRD.createResizeHandler ⟨true, true, true, false⟩ false
      ⟨none, none, false, none, none, true, true, false⟩
      [some ⟨some ⟨some 100, some 50⟩⟩, some ⟨some ⟨some 200, some 80⟩⟩]).1.rafPending
      = some (some 200, some 80) := h.1.trans (by decide)
  refine ⟨h1, ?_⟩
  have h2 := h.2.2.1 (RRD.createResizeHandler ⟨true, true, true, false⟩ false
      ⟨none, none, false, none, none, true, true, false⟩
      [some ⟨some ⟨some 100, some 50⟩⟩, some ⟨some ⟨some 200, some 80⟩⟩]).1
    (some 200, some 80) h1
  rw [h2]
  decide

/-- Claim C9: every entry of a batch is compared against the width/height
captured once at the start of the handler, not against sizes forwarded by
earlier entries of the same batch: two consecutive entries carrying the same
new size — both differing from the pre-batch width — each count as a size
change and each invoke the updater, yielding two updater calls. -/
theorem C9_prebatch_comparison (props : RRD.Props) (ssr : Bool)
    (st : RRD.Machine) (e : Option RRD.Entry) (w h : Option Nat)
    (hw : props.handleWidth = true) (hskip : st.skipOnMount = false)
    (hssr : ssr = false) (he : RRD.entryRect e = ⟨w, h⟩)
    (hne : st.width ≠ w) :
    (RRD.createResizeHandler props ssr st [e, e]).2 = [(w, h), (w, h)] := by
  have hcond : (!props.handleWidth && !props.handleHeight) = false := by
    simp [hw]
  have hew : (RRD.entryRect e).width = w := by rw [he]
  have hbne : (st.width != (RRD.entryRect e).width) = true := by
    rw [hew]
    exact bne_iff_ne.mpr hne
  have hchange : ((props.handleWidth && (st.width != (RRD.entryRect e).width))
      || (props.handleHeight && (st.height != (RRD.entryRect e).height))) = true := by
    rw [hw, hbne]
    rfl
  have hsz : RRD.entrySize e = (w, h) := by
    simp [RRD.entrySize, he]
  have h1 := RRD.processEntry_qualifying props ssr st.width st.height
    ⟨false, none, []⟩ e rfl hssr hchange
  have h2 := RRD.processEntry_qualifying props ssr st.width st.height
    ⟨false, some (w, h), [(w, h)]⟩ e rfl hssr hchange
  rw [hsz] at h1 h2
  simp only [List.nil_append] at h1
  simp [RRD.createResizeHandler, hcond, hskip, h1, h2]

/-- Witness for C9: from the initial undefined width, two consecutive
entries both measuring (100, 50) each invoke the updater. -/
theorem C9_prebatch_comparison_witness :
    (RRD.createResizeHandler ⟨true, true, true, false⟩ false
        ⟨none, none, false, none, none, true, true, false⟩
        [some ⟨some ⟨some 100, some 50⟩⟩, some ⟨some ⟨some 100, some 50⟩⟩]).2
      = [(some 100, some 50), (some 100, some 50)] :=
  C9_prebatch_comparison ⟨true, true, true, false⟩ false
    ⟨none, none, false, none, none, true, true, false⟩
    (some ⟨some ⟨some 100, some 50⟩⟩) (some 100) (some 50)
    rfl rfl rfl rfl (by decide)

/-- Claim C10: the handler is total over malformed input — a null entry or
an entry without a `contentRect` is processed with width and height read as
undefined (the embedding makes this totality explicit: `entryRect` yields an
undefined-by-undefined rectangle rather than raising); consequently, when a
numeric width is currently committed and widths are handled, such an entry
qualifies as a size change, the updater is invoked with (undefined,
undefined), and the frame flush commits width = undefined and
height = undefined. -/
theorem C10_malformed_entry (props : RRD.Props) (ssr : Bool)
    (st : RRD.Machine) (e : Option RRD.Entry) (n : Nat)
    (hme : e = none ∨ e = some ⟨none⟩)
    (hw : props.handleWidth = true) (hskip : st.skipOnMount = false)
    (hssr : ssr = false) (hwid : st.width = some n) :
    RRD.entryRect e = ⟨none, none⟩ ∧
    (RRD.createResizeHandler props ssr st [e]).2 = [(none, none)] ∧
    (RRD.frameFlush props (RRD.createResizeHandler props ssr st [e]).1).1.width
      = none ∧
    (RRD.frameFlush props (RRD.createResizeHandler props ssr st [e]).1).1.height
      = none := by
  have hrect : RRD.entryRect e = ⟨none, none⟩ := by
    rcases hme with rfl | rfl <;> rfl
  have hcond : (!props.handleWidth && !props.handleHeight) = false := by
    simp [hw]
  have hbne : (st.width != (RRD.entryRect e).width) = true := by
    rw [hrect, hwid]
    rfl
  have hchange : ((props.handleWidth && (st.width != (RRD.entryRect e).width))
      || (props.handleHeight && (st.height != (RRD.entryRect e).height))) = true := by
    rw [hw, hbne]
    rfl
  have hsz : RRD.entrySize e = (none, none) := by
    simp [RRD.entrySize, hrect]
  have h1 := RRD.processEntry_qualifying props ssr st.width st.height
    ⟨false, none, []⟩ e rfl hssr hchange
  rw [hsz] at h1
  simp only [List.nil_append] at h1
  refine ⟨hrect, ?_, ?_, ?_⟩ <;>
    simp [RRD.createResizeHandler, hcond, hskip, h1, RRD.frameFlush]

/-- Witness for C10: with width 100 committed, a batch holding one null
entry invokes the updater with undefined size and the flush resets the
state to undefined width and height. -/
theorem C10_malformed_entry_witness :
    RRD.entryRect none = ⟨none, none⟩ ∧
    (RRD.createResizeHandler ⟨true, true, true, false⟩ false
        ⟨some 100, some 50, false, none, none, true, true, false⟩ [none]).2
      = [(none, none)] ∧
    (RRD.frameFlush ⟨true, true, true, false⟩
        (RRD.createResizeHandler ⟨true, true, true, false⟩ false
          ⟨some 100, some 50, false, none, none, true, true, false⟩ [none]).1).1.width
      = none :=
  have h := C10_malformed_entry ⟨true, true, true, false⟩ false
    ⟨some 100, some 50, false, none, none, true, true, false⟩ none 100
    (Or.inl rfl) rfl rfl rfl rfl
  ⟨h.1, h.2.1, h.2.2.1⟩
